import Mathlib

/-!
Shallow embedding of the notification dispatcher and token-lifecycle manager
of `src/server.js` (the main variant: the second document in that file, which
defines `processedHadiths`, `removeInvalidToken`, `sendNamazNotification(s)`,
`sendHadithNotification(s)` and the HTTP endpoints `/save-token` and
`/toggle-notification`).

Modelling conventions:
* The Firestore `tokens` collection is a list of `(docId, enabled)` pairs,
  keyed by the token string.
* The in-process dedup set `processedHadiths` is a list of key strings.
* The FCM gateway is an oracle `gw : String → GatewayOutcome`: `admin.messaging().send`
  either resolves (`ok`) or rejects with an error carrying an `err.code` string.
* Each per-token handler returns the updated state together with the list of
  observable events it produced (gateway calls, token removals, duplicate skips).
  `Promise.all` over the per-token handlers is modelled as a sequential fold;
  the handlers touch distinct store keys and insert distinct dedup keys, as in
  the source, where each settles independently.
* A JavaScript falsy check `if (!token)` on a request field is modelled on
  `Option String`: missing (`none`) or the empty string are falsy.
-/

namespace NamazTime

/-- Outcome of one `admin.messaging().send` call: it resolves, or rejects with
an error whose `err.code` is the given string. -/
inductive GatewayOutcome
  | ok
  | error (code : String)
deriving DecidableEq, Repr

/-- The notification payload handed to the gateway, with the fields the
source sets (title, body, sound, channelId, priority, data map). -/
structure Message where
  title : String
  body : String
  sound : String
  channelId : String
  priority : String
  data : List (String × String)
deriving DecidableEq, Repr

/-- Observable events of one dispatcher run: a gateway send attempt with its
outcome, a token removal from the store, a dedup skip, or the
"no enabled users" report. -/
inductive Event
  | send (token : String) (msg : Message) (outcome : GatewayOutcome)
  | remove (token : String)
  | skipDuplicate (token : String)
  | noEnabled
deriving DecidableEq, Repr

/-- The mutable state the dispatcher touches: the `tokens` collection and the
in-process `processedHadiths` dedup set. -/
structure DispatchState where
  tokens : List (String × Bool)
  processedHadiths : List String
deriving DecidableEq, Repr

/-- A hadith content record as consumed by `sendHadithNotification`:
`category` and `text` may be absent (JavaScript `undefined`). -/
structure HadithData where
  id : String
  category : Option String
  text : Option String
deriving DecidableEq, Repr

/-- `err.code === 'messaging/invalid-registration-token' ||
err.code === 'messaging/registration-token-not-registered'` — the exact
classification test in both per-token handlers. -/
def isInvalidTokenCode (c : String) : Bool :=
  c == "messaging/invalid-registration-token" ||
  c == "messaging/registration-token-not-registered"

/-- `removeInvalidToken`: `tokensCollection.doc(token).delete()` — removes the
document keyed by the token (idempotent: deleting an absent doc is a no-op). -/
def removeInvalidToken (token : String) (st : DispatchState) : DispatchState :=
  { st with tokens := st.tokens.filter (fun e => e.1 != token) }

/-- Payload built by `sendNamazNotification`. -/
def namazMessage (namazName : String) : Message :=
  { title := "Namaz Reminder"
    body := namazName ++ " का समय हो गया है"
    sound := "azan"
    channelId := "namaz_channel"
    priority := "high"
    data := [] }

/-- `sendNamazNotification(token, namazName)`: sends one reminder; on gateway
rejection with one of the two invalid-token codes it prunes the token, any
other rejection is caught and dropped. -/
def sendNamazNotification (gw : String → GatewayOutcome) (token namazName : String)
    (st : DispatchState) : DispatchState × List Event :=
  match gw token with
  | .ok => (st, [.send token (namazMessage namazName) .ok])
  | .error c =>
    if isInvalidTokenCode c then
      (removeInvalidToken token st,
       [.send token (namazMessage namazName) (.error c), .remove token])
    else
      (st, [.send token (namazMessage namazName) (.error c)])

/-- The snapshot `tokensCollection.where('enabled', '==', true).get()`:
doc ids of the records whose `enabled` field is `true`. -/
def enabledTokens (st : DispatchState) : List String :=
  (st.tokens.filter (fun e => e.2)).map Prod.fst

/-- Runs one per-token handler over a token list, threading the state and
concatenating the emitted events (`Promise.all` over the mapped handlers). -/
def runHandlers (handler : String → DispatchState → DispatchState × List Event) :
    List String → DispatchState → DispatchState × List Event
  | [], st => (st, [])
  | t :: rest, st =>
    let r1 := handler t st
    let r2 := runHandlers handler rest r1.1
    (r2.1, r1.2 ++ r2.2)

/-- `sendNamazNotifications(namazName)`: queries the enabled snapshot; if it
is empty, logs "No enabled users" and returns; otherwise awaits every
per-token `sendNamazNotification`. -/
def sendNamazNotifications (gw : String → GatewayOutcome) (namazName : String)
    (st : DispatchState) : DispatchState × List Event :=
  let toks := enabledTokens st
  if toks.isEmpty then (st, [.noEnabled])
  else runHandlers (fun t s => sendNamazNotification gw t namazName s) toks st

/-- Body shaping in `sendHadithNotification`:
`text.length > 50 ? text.substring(0, 50) + '...' : text`. -/
def hadithBody (text : String) : String :=
  if text.length > 50 then text.take 50 ++ "..." else text

/-- `hadithData.category || 'Islamic Hadith'` — JavaScript `||` falls through
to the default when the category is absent or the empty string. -/
def categoryOrDefault : Option String → String
  | none => "Islamic Hadith"
  | some s => if s = "" then "Islamic Hadith" else s

/-- The payload built by `sendHadithNotification` for a record whose `text`
field is present. -/
def hadithMessage (hd : HadithData) (text : String) : Message :=
  { title := "नया हदीस: " ++ categoryOrDefault hd.category
    body := hadithBody text
    sound := "default"
    channelId := "hadith_channel"
    priority := "high"
    data := [("type", "hadith"), ("hadithId", hd.id),
             ("click_action", "FLUTTER_NOTIFICATION_CLICK")] }

/-- The dedup key: `` `${token}-${hadithData.id}` ``. -/
def dedupKey (token : String) (hd : HadithData) : String :=
  token ++ "-" ++ hd.id

/-- `sendHadithNotification(token, hadithData)`: skips when the dedup key is
already marked; otherwise builds the payload (accessing `hadithData.text.length`,
which throws inside the `try` when `text` is absent — the catch then sees no
FCM error code, so nothing further happens), sends, and on success marks the
dedup key; gateway rejection with an invalid-token code prunes the token. -/
def sendHadithNotification (gw : String → GatewayOutcome) (token : String)
    (hd : HadithData) (st : DispatchState) : DispatchState × List Event :=
  let key := dedupKey token hd
  if st.processedHadiths.contains key then
    (st, [.skipDuplicate token])
  else
    match hd.text with
    | none => (st, [])
    | some text =>
      match gw token with
      | .ok =>
        ({ st with processedHadiths := key :: st.processedHadiths },
         [.send token (hadithMessage hd text) .ok])
      | .error c =>
        if isInvalidTokenCode c then
          (removeInvalidToken token st,
           [.send token (hadithMessage hd text) (.error c), .remove token])
        else
          (st, [.send token (hadithMessage hd text) (.error c)])

/-- `sendHadithNotifications(hadithId, hadithData)`: queries the enabled
snapshot; if empty, logs and returns; otherwise runs the per-token handler
with `fullHadithData = { ...hadithData, id: hadithId }`. -/
def sendHadithNotifications (gw : String → GatewayOutcome) (hadithId : String)
    (hd : HadithData) (st : DispatchState) : DispatchState × List Event :=
  let toks := enabledTokens st
  if toks.isEmpty then (st, [.noEnabled])
  else
    runHandlers (fun t s => sendHadithNotification gw t { hd with id := hadithId } s)
      toks st

/-- One fan-out trigger: a scheduled reminder (cron / `/send-namaz`) or a
content alert (content watch / `/send-hadith-notification`). -/
inductive Trigger
  | namaz (name : String)
  | hadith (hadithId : String) (data : HadithData)
deriving Repr

/-- Dispatch one trigger with its own gateway behaviour. -/
def runTrigger (gw : String → GatewayOutcome) (tr : Trigger)
    (st : DispatchState) : DispatchState × List Event :=
  match tr with
  | .namaz n => sendNamazNotifications gw n st
  | .hadith i d => sendHadithNotifications gw i d st

/-- A process lifetime: a sequence of fan-out triggers, each with the gateway
behaviour in effect at that time, threaded through the in-process state. -/
def runTriggers : List ((String → GatewayOutcome) × Trigger) → DispatchState →
    DispatchState × List Event
  | [], st => (st, [])
  | p :: rest, st =>
    let r1 := runTrigger p.1 p.2 st
    let r2 := runTriggers rest r1.1
    (r2.1, r1.2 ++ r2.2)

/-! ## HTTP endpoints -/

/-- HTTP responses the two token endpoints produce. -/
inductive Resp
  | ok (body : String)
  | badRequest (body : String)
  | notFound (body : String)
  | serverError (body : String)
deriving DecidableEq, Repr

/-- JavaScript falsy test on a request field: missing or the empty string. -/
def isFalsy : Option String → Bool
  | none => true
  | some t => t == ""

/-- `tokensCollection.doc(t).get()`: the stored `enabled` field, or `none`
when no document with that key exists. -/
def lookupToken (t : String) (st : DispatchState) : Option Bool :=
  (st.tokens.find? (fun e => e.1 == t)).map Prod.snd

/-- `POST /save-token` (server.js main variant): 400 when the token is falsy;
otherwise creates `{enabled: true}` only when no document exists, and always
responds with success. -/
def saveToken (token : Option String) (st : DispatchState) : DispatchState × Resp :=
  if isFalsy token then (st, .badRequest "Token missing")
  else
    let t := token.getD ""
    match lookupToken t st with
    | some _ => (st, .ok "Token processed")
    | none => ({ st with tokens := st.tokens ++ [(t, true)] }, .ok "Token processed")

/-- `POST /toggle-notification` (server.js main variant): 400 when `enabled`
is not a boolean or the token is falsy; otherwise `doc(token).update({enabled})`,
which in Firestore fails with NOT_FOUND when the document is absent — caught
by the handler, which then responds 500. -/
def toggleNotification (token : Option String) (enabled : Option Bool)
    (st : DispatchState) : DispatchState × Resp :=
  if enabled.isNone || isFalsy token then (st, .badRequest "Invalid data")
  else
    let t := token.getD ""
    let b := enabled.getD true
    if st.tokens.any (fun e => e.1 == t) then
      ({ st with tokens := st.tokens.map (fun e => if e.1 == t then (e.1, b) else e) },
       .ok "Notification preference updated")
    else
      (st, .serverError "Error updating preference")

/-! ## Event counting helpers -/

/-- Number of gateway send attempts targeting token `t`. -/
def sendsTo (t : String) (evs : List Event) : Nat :=
  evs.countP (fun e => match e with
    | .send tok _ _ => tok == t
    | _ => false)

/-- Number of store removals of token `t`. -/
def removesOf (t : String) (evs : List Event) : Nat :=
  evs.countP (fun e => match e with
    | .remove tok => tok == t
    | _ => false)

/-- Number of store removals of any token. -/
def removesTotal (evs : List Event) : Nat :=
  evs.countP (fun e => match e with
    | .remove _ => true
    | _ => false)

/-- The tokens of the gateway send attempts, in order. -/
def sendTokens (evs : List Event) : List String :=
  evs.filterMap (fun e => match e with
    | .send tok _ _ => some tok
    | _ => none)

/-- The tokens whose per-token attempt visibly settled: a gateway send of any
outcome, or a dedup skip. -/
def settledTokens (evs : List Event) : List String :=
  evs.filterMap (fun e => match e with
    | .send tok _ _ => some tok
    | .skipDuplicate tok => some tok
    | _ => none)

/-- Whether an event is a gateway send (any outcome) to token `t` carrying the
content id `c` under the `hadithId` key of its data map. -/
def isSendForPair (t c : String) : Event → Bool
  | .send tok msg _ => tok == t && msg.data.lookup "hadithId" == some c
  | _ => false

/-- Whether an event is a successful gateway send to token `t` carrying the
content id `c` under the `hadithId` key of its data map. -/
def isOkSendForPair (t c : String) : Event → Bool
  | .send tok msg out => tok == t && msg.data.lookup "hadithId" == some c &&
      out == GatewayOutcome.ok
  | _ => false

/-- Number of gateway send attempts (any outcome) for the pair `(t, c)`. -/
def sendsForPair (t c : String) (evs : List Event) : Nat :=
  evs.countP (isSendForPair t c)

/-- Number of successful gateway sends for the pair `(t, c)`. -/
def okSendsForPair (t c : String) (evs : List Event) : Nat :=
  evs.countP (isOkSendForPair t c)

/-- Whether the store holds a document keyed by `t`. -/
def hasTokenRecord (t : String) (st : DispatchState) : Bool :=
  st.tokens.any (fun e => e.1 == t)

/-- Whether the store holds a document keyed by `t` with `enabled: true`. -/
def enabledFor (t : String) (st : DispatchState) : Bool :=
  st.tokens.any (fun e => e.1 == t && e.2)

/-- Events that are neither gateway calls nor store removals: dedup skips and
the "no enabled users" report. -/
def isQuietEvent : Event → Bool
  | .skipDuplicate _ => true
  | .noEnabled => true
  | _ => false

/-- Sequential composition of two state-and-events computations; both
`runHandlers` and `runTriggers` are folds of this shape. -/
def seqStep (f g : DispatchState → DispatchState × List Event)
    (st : DispatchState) : DispatchState × List Event :=
  let r1 := f st
  let r2 := g r1.1
  (r2.1, r1.2 ++ r2.2)

/-- The dedup invariant for the pair `(t, c)` of one state-and-events step:
the dedup set only grows; a marked key suppresses every gateway call for the
pair; the step performs at most one successful send for the pair; and a
successful send leaves the key marked. -/
def DedupStep (t c : String) (f : DispatchState → DispatchState × List Event) : Prop :=
  ∀ st : DispatchState,
    (∀ k, st.processedHadiths.contains k = true →
        (f st).1.processedHadiths.contains k = true) ∧
    (st.processedHadiths.contains (t ++ "-" ++ c) = true →
        sendsForPair t c (f st).2 = 0) ∧
    okSendsForPair t c (f st).2 ≤ 1 ∧
    (1 ≤ okSendsForPair t c (f st).2 →
        (f st).1.processedHadiths.contains (t ++ "-" ++ c) = true)

/-! ## Concrete sample data -/

/-- A gateway that accepts every send. -/
def gwAllOk : String → GatewayOutcome := fun _ => .ok

/-- A gateway that rejects every send with the first invalid-token code. -/
def gwAllInvalid : String → GatewayOutcome :=
  fun _ => .error "messaging/invalid-registration-token"

/-- A content record with a short text and no category. -/
def sampleHadith : HadithData :=
  { id := "h1", category := none, text := some "Sample hadith text" }

/-- A content record with no `text` field. -/
def noTextHadith : HadithData :=
  { id := "h2", category := some "Adab", text := none }

/-- A store with one enabled and one disabled token. -/
def sampleState : DispatchState :=
  { tokens := [("A", true), ("B", false)], processedHadiths := [] }

/-- A store whose only token is disabled. -/
def disabledState : DispatchState :=
  { tokens := [("B", false)], processedHadiths := [] }

/-- A 60-character text. -/
def sampleText60 : String :=
  "012345678901234567890123456789012345678901234567890123456789"

/-- A 50-character text. -/
def sampleText50 : String :=
  "01234567890123456789012345678901234567890123456789"

/-- A content record whose text has 60 characters. -/
def hadith60 : HadithData := { id := "h60", category := none, text := some sampleText60 }

/-- A content record whose text has exactly 50 characters. -/
def hadith50 : HadithData := { id := "h50", category := none, text := some sampleText50 }

/-! ## General lemmas about the fan-out fold -/

lemma runHandlers_cons (handler : String → DispatchState → DispatchState × List Event)
    (t : String) (rest : List String) (st : DispatchState) :
    runHandlers handler (t :: rest) st =
      ((runHandlers handler rest (handler t st).1).1,
       (handler t st).2 ++ (runHandlers handler rest (handler t st).1).2) := rfl

lemma runHandlers_state_id (handler : String → DispatchState → DispatchState × List Event)
    (h : ∀ t s, (handler t s).1 = s) :
    ∀ toks st, (runHandlers handler toks st).1 = st := by
  intro toks
  induction toks with
  | nil => intro st; rfl
  | cons t rest ih =>
    intro st
    rw [runHandlers_cons, h t st]
    exact ih st

lemma runHandlers_events_all (handler : String → DispatchState → DispatchState × List Event)
    (p : Event → Bool) (h : ∀ t s, ((handler t s).2.all p) = true) :
    ∀ toks st, ((runHandlers handler toks st).2.all p) = true := by
  intro toks
  induction toks with
  | nil => intro st; rfl
  | cons t rest ih =>
    intro st
    rw [runHandlers_cons]
    simp only [List.all_append, Bool.and_eq_true]
    exact ⟨h t st, ih _⟩

lemma sendTokens_of_quiet :
    ∀ evs : List Event, evs.all isQuietEvent = true → sendTokens evs = [] := by
  intro evs
  induction evs with
  | nil => intro _; rfl
  | cons e rest ih =>
    intro h
    simp only [List.all_cons, Bool.and_eq_true] at h
    cases e with
    | send tok msg out => exact absurd h.1 (by simp [isQuietEvent])
    | remove tok => exact absurd h.1 (by simp [isQuietEvent])
    | skipDuplicate tok => simpa [sendTokens, List.filterMap_cons] using ih h.2
    | noEnabled => simpa [sendTokens, List.filterMap_cons] using ih h.2

lemma removesTotal_of_quiet (evs : List Event) (h : evs.all isQuietEvent = true) :
    removesTotal evs = 0 := by
  rw [removesTotal, List.countP_eq_zero]
  intro e he
  have he2 := List.all_eq_true.mp h e he
  cases e <;> simp_all [isQuietEvent]

/-! ## Per-token handler facts for missing-text content records -/

lemma hadith_handler_no_text_state (gw : String → GatewayOutcome) (tok : String)
    (hd : HadithData) (st : DispatchState) (h : hd.text = none) :
    (sendHadithNotification gw tok hd st).1 = st := by
  unfold sendHadithNotification
  by_cases hk : dedupKey tok hd ∈ st.processedHadiths
  · simp [hk]
  · simp [hk, h]

lemma hadith_handler_no_text_events (gw : String → GatewayOutcome) (tok : String)
    (hd : HadithData) (st : DispatchState) (h : hd.text = none) :
    ((sendHadithNotification gw tok hd st).2.all isQuietEvent) = true := by
  unfold sendHadithNotification
  by_cases hk : dedupKey tok hd ∈ st.processedHadiths
  · simp [hk, isQuietEvent]
  · simp [hk, h]

/-- Shared fact: when the record's text is present and the dedup key is not
yet marked, the per-token handler performs exactly one gateway call, sending
`hadithMessage` with whatever outcome the gateway produces. -/
lemma hadith_send_event (gw : String → GatewayOutcome) (t : String) (hd : HadithData)
    (txt : String) (st : DispatchState)
    (htext : hd.text = some txt)
    (hkey : st.processedHadiths.contains (dedupKey t hd) = false) :
    ((sendHadithNotification gw t hd st).2.contains
        (Event.send t (hadithMessage hd txt) (gw t))) = true := by
  have hk : dedupKey t hd ∉ st.processedHadiths := by simpa using hkey
  unfold sendHadithNotification
  cases hgw : gw t with
  | ok => simp [hk, htext, hgw]
  | error c =>
    by_cases hinv : isInvalidTokenCode c = true <;> simp [hk, htext, hgw, hinv]

/-! ## Claim theorems (first group) -/

/-- C8: if the enabled snapshot is empty, both fan-out kinds are no-ops that
report "no enabled users" and return normally with zero gateway invocations
and an unchanged state. -/
theorem empty_snapshot_noop (gw gw2 : String → GatewayOutcome) (n i : String)
    (hd : HadithData) (st : DispatchState)
    (h : enabledTokens st = []) :
    sendNamazNotifications gw n st = (st, [Event.noEnabled]) ∧
    sendHadithNotifications gw2 i hd st = (st, [Event.noEnabled]) ∧
    sendTokens [Event.noEnabled] = [] := by
  unfold sendNamazNotifications sendHadithNotifications
  simp [h]
  rfl

/-- C10: a ContentAlert fan-out over a record with no `text` field completes
normally with the state unchanged (no dedup key marked, no token removed),
zero gateway sends and zero store removals, for every token in the store. -/
theorem contentAlert_missing_text_safe (gw : String → GatewayOutcome) (i : String)
    (hd : HadithData) (st : DispatchState)
    (htext : hd.text = none) :
    (sendHadithNotifications gw i hd st).1 = st ∧
    sendTokens (sendHadithNotifications gw i hd st).2 = [] ∧
    removesTotal (sendHadithNotifications gw i hd st).2 = 0 := by
  have hfull : ({ hd with id := i } : HadithData).text = none := htext
  unfold sendHadithNotifications
  by_cases hemp : (enabledTokens st).isEmpty = true
  · simp [hemp, sendTokens, removesTotal]
  · simp only [hemp, Bool.false_eq_true, if_false]
    have hq := runHandlers_events_all
      (fun tok s => sendHadithNotification gw tok { hd with id := i } s) isQuietEvent
      (fun tok s => hadith_handler_no_text_events gw tok _ s hfull)
      (enabledTokens st) st
    refine ⟨?_, sendTokens_of_quiet _ hq, removesTotal_of_quiet _ hq⟩
    exact runHandlers_state_id _
      (fun tok s => hadith_handler_no_text_state gw tok _ s hfull) (enabledTokens st) st

/-- C4: the ContentAlert body is the record's text verbatim when its length is
at most 50 characters, and the first 50 characters followed by the ellipsis
marker "..." when longer; the handler sends exactly this message. -/
theorem contentAlert_truncation (gw : String → GatewayOutcome) (t : String)
    (hd : HadithData) (txt : String) (st : DispatchState)
    (htext : hd.text = some txt)
    (hkey : st.processedHadiths.contains (dedupKey t hd) = false) :
    ((sendHadithNotification gw t hd st).2.contains
        (Event.send t (hadithMessage hd txt) (gw t)) = true) ∧
    (txt.length ≤ 50 → (hadithMessage hd txt).body = txt) ∧
    (txt.length > 50 → (hadithMessage hd txt).body = txt.take 50 ++ "...") := by
  refine ⟨hadith_send_event gw t hd txt st htext hkey, ?_, ?_⟩
  · intro hle
    simp [hadithMessage, hadithBody, Nat.not_lt.mpr hle]
  · intro hgt
    simp [hadithMessage, hadithBody, hgt]

/-- C9: the ContentAlert payload interpolates the record's category into the
title with default "Islamic Hadith" when absent, is routed to channel
`hadith_channel` with the default sound, and carries the structured data
`type`/`hadithId`/`click_action`; the handler sends exactly this message. -/
theorem contentAlert_payload (gw : String → GatewayOutcome) (t : String)
    (hd : HadithData) (txt cat : String) (st : DispatchState)
    (htext : hd.text = some txt)
    (hkey : st.processedHadiths.contains (dedupKey t hd) = false) :
    ((sendHadithNotification gw t hd st).2.contains
        (Event.send t (hadithMessage hd txt) (gw t)) = true) ∧
    (hadithMessage hd txt).channelId = "hadith_channel" ∧
    (hadithMessage hd txt).sound = "default" ∧
    (hadithMessage hd txt).data =
      [("type", "hadith"), ("hadithId", hd.id),
       ("click_action", "FLUTTER_NOTIFICATION_CLICK")] ∧
    (hd.category = none →
        (hadithMessage hd txt).title = "नया हदीस: Islamic Hadith") ∧
    (hd.category = some cat → cat ≠ "" →
        (hadithMessage hd txt).title = "नया हदीस: " ++ cat) := by
  refine ⟨hadith_send_event gw t hd txt st htext hkey, rfl, rfl, rfl, ?_, ?_⟩
  · intro hc
    simp [hadithMessage, categoryOrDefault, hc]
  · intro hc hne
    simp [hadithMessage, categoryOrDefault, hc, hne]

/-! ## Endpoint lemmas -/

lemma any_eq_find?_isSome (p : α → Bool) : ∀ l : List α, l.any p = (l.find? p).isSome := by
  intro l
  induction l with
  | nil => rfl
  | cons a as ih =>
    by_cases hp : p a
    · simp [List.any_cons, List.find?_cons, hp]
    · simp [List.any_cons, List.find?_cons, hp, ih]

lemma hasTokenRecord_eq_isSome (t : String) (st : DispatchState) :
    hasTokenRecord t st = (lookupToken t st).isSome := by
  unfold hasTokenRecord lookupToken
  rw [any_eq_find?_isSome]
  cases st.tokens.find? (fun e => e.1 == t) <;> rfl

lemma saveToken_lookup_some (st : DispatchState) (t : String) (b : Bool) (ht : t ≠ "")
    (h : lookupToken t st = some b) :
    saveToken (some t) st = (st, .ok "Token processed") := by
  unfold saveToken
  simp [isFalsy, ht, h]

lemma saveToken_lookup_none (st : DispatchState) (t : String) (ht : t ≠ "")
    (h : lookupToken t st = none) :
    saveToken (some t) st =
      ({ st with tokens := st.tokens ++ [(t, true)] }, .ok "Token processed") := by
  unfold saveToken
  simp [isFalsy, ht, h]

lemma lookupToken_append_self (st : DispatchState) (t : String)
    (h : lookupToken t st = none) :
    lookupToken t { st with tokens := st.tokens ++ [(t, true)] } = some true := by
  have h0 : st.tokens.find? (fun e => e.1 == t) = none := by
    cases hf : st.tokens.find? (fun e => e.1 == t) with
    | none => rfl
    | some x => unfold lookupToken at h; rw [hf] at h; simp at h
  unfold lookupToken
  simp [List.find?_append, h0, List.find?_cons]

lemma find?_map_update (t : String) (b : Bool) :
    ∀ l : List (String × Bool), l.any (fun e => e.1 == t) = true →
      ((l.map (fun e => if e.1 == t then (e.1, b) else e)).find?
        (fun e => e.1 == t)) = some (t, b) := by
  intro l
  induction l with
  | nil => intro h; simp at h
  | cons a as ih =>
    intro h
    by_cases hat : a.1 = t
    · have hb : (a.1 == t) = true := beq_iff_eq.mpr hat
      rw [List.map_cons, if_pos hb, List.find?_cons_of_pos _ (by simpa using hat)]
      simp [hat]
    · have hb : (a.1 == t) = false := by simpa using hat
      rw [List.map_cons, if_neg (by simp [hb]), List.find?_cons_of_neg _ (by simp [hb])]
      have h' : as.any (fun e => e.1 == t) = true := by
        simp only [List.any_cons, hb, Bool.false_or] at h
        exact h
      exact ih h'

lemma filter_ne_map_update (t : String) (b : Bool) :
    ∀ l : List (String × Bool),
      (l.map (fun e => if e.1 == t then (e.1, b) else e)).filter (fun e => e.1 != t) =
        l.filter (fun e => e.1 != t) := by
  intro l
  induction l with
  | nil => rfl
  | cons a as ih =>
    by_cases hat : a.1 = t
    · have hb : (a.1 == t) = true := beq_iff_eq.mpr hat
      rw [List.map_cons, if_pos hb, List.filter_cons_of_neg (by simp [bne, hb]),
          List.filter_cons_of_neg (by simp [bne, hb])]
      exact ih
    · have hb : (a.1 == t) = false := by simpa using hat
      rw [List.map_cons, if_neg (by simp [hb]), List.filter_cons_of_pos (by simp [bne, hb]),
          List.filter_cons_of_pos (by simp [bne, hb]), ih]

/-! ## Claim theorems (second group) -/

/-- C6: `POST /save-token` is idempotent: a first call for a new token creates
the record with `enabled: true`; any repeated call with the same token writes
nothing (the state after the second call equals the state after the first,
and an existing token leaves the store untouched) and still responds with
success. -/
theorem saveToken_idempotent (st : DispatchState) (t : String) (ht : t ≠ "") :
    (saveToken (some t) (saveToken (some t) st).1).1 = (saveToken (some t) st).1 ∧
    (saveToken (some t) (saveToken (some t) st).1).2 = Resp.ok "Token processed" ∧
    (hasTokenRecord t st = false → lookupToken t (saveToken (some t) st).1 = some true) ∧
    (hasTokenRecord t st = true → (saveToken (some t) st).1 = st) := by
  cases hl : lookupToken t st with
  | some b =>
    have h1 := saveToken_lookup_some st t b ht hl
    refine ⟨?_, ?_, ?_, ?_⟩
    · simp [h1]
    · simp [h1]
    · intro habs
      rw [hasTokenRecord_eq_isSome, hl] at habs
      simp at habs
    · intro _; simp [h1]
  | none =>
    have h1 := saveToken_lookup_none st t ht hl
    have h2 := lookupToken_append_self st t hl
    have h3 := saveToken_lookup_some
      { st with tokens := st.tokens ++ [(t, true)] } t true ht h2
    refine ⟨?_, ?_, ?_, ?_⟩
    · simp [h1, h3]
    · simp [h1, h3]
    · intro _; simp [h1, h2]
    · intro habs
      rw [hasTokenRecord_eq_isSome, hl] at habs
      simp at habs

/-- C7 counterexample: toggling a token absent from the store responds with
the generic 500 "Error updating preference" (the Firestore `update` failure is
caught by the handler's catch-all), not with 404 "Token not found" as the
claim states. -/
theorem toggle_notFound_counterexample :
    (toggleNotification (some "X") (some true)
        { tokens := [], processedHadiths := [] }).2 =
      Resp.serverError "Error updating preference" ∧
    ¬ ((toggleNotification (some "X") (some true)
        { tokens := [], processedHadiths := [] }).2 =
      Resp.notFound "Token not found") := by
  constructor <;> decide

/-- C7 (amended): `POST /toggle-notification` for an absent token performs no
store mutation and responds 500 (the update failure is caught generically);
for a present token it flips only that token's `enabled` flag, leaves every
other record and the dedup set unchanged, and responds 200. -/
theorem toggle_amended (st : DispatchState) (t : String) (b : Bool) (ht : t ≠ "") :
    (hasTokenRecord t st = false →
        toggleNotification (some t) (some b) st =
          (st, Resp.serverError "Error updating preference")) ∧
    (hasTokenRecord t st = true →
        (toggleNotification (some t) (some b) st).2 =
          Resp.ok "Notification preference updated" ∧
        lookupToken t (toggleNotification (some t) (some b) st).1 = some b ∧
        (toggleNotification (some t) (some b) st).1.tokens.filter (fun e => e.1 != t) =
          st.tokens.filter (fun e => e.1 != t) ∧
        (toggleNotification (some t) (some b) st).1.processedHadiths =
          st.processedHadiths) := by
  constructor
  · intro h
    unfold toggleNotification
    unfold hasTokenRecord at h
    simp [isFalsy, ht, h]
  · intro h
    unfold hasTokenRecord at h
    unfold toggleNotification
    simp only [Option.isNone_some, isFalsy, Bool.false_or, Option.getD_some]
    rw [if_neg (by simpa using ht), if_pos h]
    refine ⟨rfl, ?_, ?_, rfl⟩
    · unfold lookupToken
      rw [find?_map_update t b st.tokens h]
      rfl
    · exact filter_ne_map_update t b st.tokens

/-! ## Trace lemmas for the fan-out -/

lemma sendTokens_append (l1 l2 : List Event) :
    sendTokens (l1 ++ l2) = sendTokens l1 ++ sendTokens l2 := by
  unfold sendTokens
  rw [List.filterMap_append]

lemma sendsTo_append (t : String) (l1 l2 : List Event) :
    sendsTo t (l1 ++ l2) = sendsTo t l1 + sendsTo t l2 := by
  unfold sendsTo
  rw [List.countP_append]

lemma namaz_handler_sendTokens (gw : String → GatewayOutcome) (tok n : String)
    (s : DispatchState) :
    sendTokens (sendNamazNotification gw tok n s).2 = [tok] := by
  unfold sendNamazNotification
  cases hgw : gw tok with
  | ok => rfl
  | error c =>
    by_cases hinv : isInvalidTokenCode c = true <;> simp [hinv, sendTokens]

lemma runHandlers_sendTokens (handler : String → DispatchState → DispatchState × List Event)
    (h : ∀ tok s, sendTokens (handler tok s).2 = [tok]) :
    ∀ toks st, sendTokens (runHandlers handler toks st).2 = toks := by
  intro toks
  induction toks with
  | nil => intro st; rfl
  | cons tok rest ih =>
    intro st
    rw [runHandlers_cons]
    show sendTokens ((handler tok st).2 ++ _) = _
    rw [sendTokens_append, h, ih]
    rfl

/-- Shared fact behind C5 and the positive half of C2's scenario: a scheduled
fan-out issues exactly one gateway attempt per token of the enabled snapshot,
in snapshot order, for every gateway behaviour. -/
lemma namaz_fanout_sendTokens (gw : String → GatewayOutcome) (n : String)
    (st : DispatchState) :
    sendTokens (sendNamazNotifications gw n st).2 = enabledTokens st := by
  unfold sendNamazNotifications
  by_cases hemp : List.isEmpty (enabledTokens st) = true
  · rw [if_pos hemp, List.isEmpty_iff.mp hemp]
    rfl
  · rw [if_neg hemp]
    exact runHandlers_sendTokens _ (fun tok s => namaz_handler_sendTokens gw tok n s)
      (enabledTokens st) st

lemma namaz_handler_sendsTo_other (gw : String → GatewayOutcome) (tok n : String)
    (s : DispatchState) (t : String) (hne : tok ≠ t) :
    sendsTo t (sendNamazNotification gw tok n s).2 = 0 := by
  have hb : (tok == t) = false := by simpa using hne
  unfold sendNamazNotification sendsTo
  cases hgw : gw tok with
  | ok => simp [hb]
  | error c =>
    by_cases hinv : isInvalidTokenCode c = true <;> simp [hinv, hb]

lemma hadith_handler_sendsTo_other (gw : String → GatewayOutcome) (tok : String)
    (hd : HadithData) (s : DispatchState) (t : String) (hne : tok ≠ t) :
    sendsTo t (sendHadithNotification gw tok hd s).2 = 0 := by
  have hb : (tok == t) = false := by simpa using hne
  unfold sendHadithNotification sendsTo
  by_cases hk : dedupKey tok hd ∈ s.processedHadiths
  · simp [hk]
  · cases htxt : hd.text with
    | none => simp [hk, htxt]
    | some txt =>
      cases hgw : gw tok with
      | ok => simp [hk, htxt, hb]
      | error c =>
        by_cases hinv : isInvalidTokenCode c = true <;> simp [hk, htxt, hinv, hb]

lemma runHandlers_sendsTo_zero (handler : String → DispatchState → DispatchState × List Event)
    (t : String)
    (h : ∀ tok s, tok ≠ t → sendsTo t (handler tok s).2 = 0) :
    ∀ toks st, t ∉ toks → sendsTo t (runHandlers handler toks st).2 = 0 := by
  intro toks
  induction toks with
  | nil => intro st _; rfl
  | cons tok rest ih =>
    intro st hmem
    rw [List.mem_cons] at hmem
    push_neg at hmem
    rw [runHandlers_cons]
    show sendsTo t ((handler tok st).2 ++ _) = 0
    rw [sendsTo_append, h tok st (fun e => hmem.1 e.symm), ih _ hmem.2]

lemma not_mem_enabledTokens (t : String) (st : DispatchState)
    (h : enabledFor t st = false) :
    t ∉ enabledTokens st := by
  intro hm
  unfold enabledTokens at hm
  rcases List.mem_map.mp hm with ⟨e, he, hfst⟩
  rcases List.mem_filter.mp he with ⟨hmem, hen⟩
  unfold enabledFor at h
  rw [List.any_eq_false] at h
  exact h e hmem (by simp [hfst, hen])

lemma mem_enabledTokens (t : String) (st : DispatchState)
    (h : enabledFor t st = true) :
    t ∈ enabledTokens st := by
  unfold enabledFor at h
  rw [List.any_eq_true] at h
  rcases h with ⟨e, he, hp⟩
  rw [Bool.and_eq_true] at hp
  have h1 : e.1 = t := by simpa using hp.1
  unfold enabledTokens
  exact List.mem_map.mpr ⟨e, List.mem_filter.mpr ⟨he, hp.2⟩, h1⟩

/-! ## Pruning lemmas -/

lemma namaz_handler_removes (gw : String → GatewayOutcome) (tok n : String)
    (s : DispatchState) (c : String) (hc : gw tok = .error c)
    (hinv : isInvalidTokenCode c = true) :
    sendNamazNotification gw tok n s =
      (removeInvalidToken tok s,
       [.send tok (namazMessage n) (.error c), .remove tok]) := by
  unfold sendNamazNotification
  rw [hc]
  simp [hinv]

lemma hasTokenRecord_remove_self (tok : String) (s : DispatchState) :
    hasTokenRecord tok (removeInvalidToken tok s) = false := by
  unfold hasTokenRecord removeInvalidToken
  rw [List.any_eq_false]
  intro e he
  have h2 := (List.mem_filter.mp he).2
  simp only [bne_iff_ne, ne_eq, decide_eq_true_eq] at h2
  simpa using h2

lemma hasTokenRecord_filter_false (t : String) (l : List (String × Bool))
    (p : String × Bool → Bool)
    (h : l.any (fun e => e.1 == t) = false) :
    (l.filter p).any (fun e => e.1 == t) = false := by
  rw [List.any_eq_false] at h ⊢
  intro e he
  exact h e (List.mem_filter.mp he).1

lemma namaz_handler_preserves_absence (gw : String → GatewayOutcome) (tok n : String)
    (s : DispatchState) (t : String)
    (h : hasTokenRecord t s = false) :
    hasTokenRecord t (sendNamazNotification gw tok n s).1 = false := by
  unfold sendNamazNotification
  cases hgw : gw tok with
  | ok => exact h
  | error c =>
    by_cases hinv : isInvalidTokenCode c = true
    · simp only [hinv, if_true]
      unfold hasTokenRecord removeInvalidToken at *
      exact hasTokenRecord_filter_false t s.tokens _ h
    · simp only [hinv]
      simpa using h

lemma runHandlers_preserves_absence
    (handler : String → DispatchState → DispatchState × List Event) (t : String)
    (hpres : ∀ tok s, hasTokenRecord t s = false →
        hasTokenRecord t (handler tok s).1 = false) :
    ∀ toks st, hasTokenRecord t st = false →
      hasTokenRecord t (runHandlers handler toks st).1 = false := by
  intro toks
  induction toks with
  | nil => intro st h; exact h
  | cons tok rest ih =>
    intro st h
    rw [runHandlers_cons]
    exact ih _ (hpres tok st h)

lemma runHandlers_removes
    (handler : String → DispatchState → DispatchState × List Event) (t : String)
    (hkill : ∀ s, hasTokenRecord t (handler t s).1 = false)
    (hpres : ∀ tok s, hasTokenRecord t s = false →
        hasTokenRecord t (handler tok s).1 = false) :
    ∀ toks st, t ∈ toks →
      hasTokenRecord t (runHandlers handler toks st).1 = false := by
  intro toks
  induction toks with
  | nil => intro st h; cases h
  | cons tok rest ih =>
    intro st hmem
    rw [runHandlers_cons]
    rcases List.mem_cons.mp hmem with rfl | hm
    · exact runHandlers_preserves_absence handler t hpres rest _ (hkill st)
    · exact ih _ hm

/-! ## Claim theorems (third group) -/

/-- C2: a token with no enabled record never receives a gateway call from
either fan-out kind, and a scheduled fan-out attempts exactly the enabled
snapshot (so in the scenario tokens = A enabled, B disabled, it sends to A
only). -/
theorem disabled_token_never_sent (gw gw2 : String → GatewayOutcome)
    (n i : String) (hd : HadithData) (st : DispatchState) (t : String)
    (h : enabledFor t st = false) :
    sendsTo t (sendNamazNotifications gw n st).2 = 0 ∧
    sendsTo t (sendHadithNotifications gw2 i hd st).2 = 0 ∧
    sendTokens (sendNamazNotifications gw n st).2 = enabledTokens st := by
  have hnm := not_mem_enabledTokens t st h
  refine ⟨?_, ?_, namaz_fanout_sendTokens gw n st⟩
  · unfold sendNamazNotifications
    by_cases hemp : List.isEmpty (enabledTokens st) = true
    · rw [if_pos hemp]; rfl
    · rw [if_neg hemp]
      exact runHandlers_sendsTo_zero _ t
        (fun tok s hne => namaz_handler_sendsTo_other gw tok n s t hne)
        (enabledTokens st) st hnm
  · unfold sendHadithNotifications
    by_cases hemp : List.isEmpty (enabledTokens st) = true
    · rw [if_pos hemp]; rfl
    · rw [if_neg hemp]
      exact runHandlers_sendsTo_zero _ t
        (fun tok s hne => hadith_handler_sendsTo_other gw2 tok _ s t hne)
        (enabledTokens st) st hnm

/-- C3: the invalid-token classification is exactly the two provider codes;
on such an error the handler sends once (no retry), invokes the store removal,
and after the fan-out the store no longer contains the token; any other error
code leaves the state untouched with a single abandoned attempt and no
removal. -/
theorem invalid_token_pruned (gw : String → GatewayOutcome) (t n c : String)
    (st : DispatchState)
    (hc : gw t = .error c) :
    (isInvalidTokenCode c = true ↔
        (c = "messaging/invalid-registration-token" ∨
         c = "messaging/registration-token-not-registered")) ∧
    (isInvalidTokenCode c = true →
        sendNamazNotification gw t n st =
          (removeInvalidToken t st,
           [.send t (namazMessage n) (.error c), .remove t]) ∧
        (enabledFor t st = true →
            hasTokenRecord t (sendNamazNotifications gw n st).1 = false)) ∧
    (isInvalidTokenCode c = false →
        sendNamazNotification gw t n st =
          (st, [.send t (namazMessage n) (.error c)])) := by
  refine ⟨?_, ?_, ?_⟩
  · unfold isInvalidTokenCode
    simp [Bool.or_eq_true, beq_iff_eq]
  · intro hinv
    refine ⟨namaz_handler_removes gw t n st c hc hinv, ?_⟩
    intro hen
    have hmem := mem_enabledTokens t st hen
    have hemp : ¬ (List.isEmpty (enabledTokens st) = true) := by
      intro he
      rw [List.isEmpty_iff.mp he] at hmem
      cases hmem
    unfold sendNamazNotifications
    rw [if_neg hemp]
    exact runHandlers_removes _ t
      (fun s => by
        rw [namaz_handler_removes gw t n s c hc hinv]
        exact hasTokenRecord_remove_self t s)
      (fun tok s h => namaz_handler_preserves_absence gw tok n s t h)
      (enabledTokens st) st hmem
  · intro hinv
    unfold sendNamazNotification
    rw [hc]
    simp [hinv]

/-! ## Dedup invariant lemmas (C1) -/

lemma sendsForPair_append (t c : String) (l1 l2 : List Event) :
    sendsForPair t c (l1 ++ l2) = sendsForPair t c l1 + sendsForPair t c l2 := by
  unfold sendsForPair
  rw [List.countP_append]

lemma okSendsForPair_append (t c : String) (l1 l2 : List Event) :
    okSendsForPair t c (l1 ++ l2) = okSendsForPair t c l1 + okSendsForPair t c l2 := by
  unfold okSendsForPair
  rw [List.countP_append]

lemma okSendsForPair_le_sendsForPair (t c : String) (evs : List Event) :
    okSendsForPair t c evs ≤ sendsForPair t c evs := by
  unfold okSendsForPair sendsForPair
  apply List.countP_mono_left
  intro e _ hp
  cases e with
  | send tok msg out =>
    simp only [isOkSendForPair, isSendForPair, Bool.and_eq_true] at hp ⊢
    exact hp.1
  | remove tok => simp [isOkSendForPair] at hp
  | skipDuplicate tok => simp [isOkSendForPair] at hp
  | noEnabled => simp [isOkSendForPair] at hp

lemma isSendForPair_hadith (t c tok : String) (hd : HadithData) (txt : String)
    (out : GatewayOutcome) :
    isSendForPair t c (.send tok (hadithMessage hd txt) out) =
      (tok == t && (hd.id == c)) := rfl

lemma isOkSendForPair_hadith (t c tok : String) (hd : HadithData) (txt : String)
    (out : GatewayOutcome) :
    isOkSendForPair t c (.send tok (hadithMessage hd txt) out) =
      (tok == t && (hd.id == c) && (out == GatewayOutcome.ok)) := rfl

lemma isSendForPair_namaz (t c tok n : String) (out : GatewayOutcome) :
    isSendForPair t c (.send tok (namazMessage n) out) = false := by
  show (tok == t && false) = false
  exact Bool.and_false _

lemma isOkSendForPair_namaz (t c tok n : String) (out : GatewayOutcome) :
    isOkSendForPair t c (.send tok (namazMessage n) out) = false := by
  show (tok == t && false && (out == GatewayOutcome.ok)) = false
  rw [Bool.and_false, Bool.false_and]

lemma sendsForPair_remove (t c tok : String) :
    sendsForPair t c [Event.remove tok] = 0 := rfl

lemma okSendsForPair_remove (t c tok : String) :
    okSendsForPair t c [Event.remove tok] = 0 := rfl

lemma sendsForPair_hadith_zero (t c tok : String) (hd : HadithData) (txt : String)
    (out : GatewayOutcome) (rest : List Event)
    (hrest : sendsForPair t c rest = 0)
    (hm : (tok == t && (hd.id == c)) = false) :
    sendsForPair t c (Event.send tok (hadithMessage hd txt) out :: rest) = 0 := by
  unfold sendsForPair at hrest ⊢
  rw [List.countP_cons, hrest, isSendForPair_hadith, hm]
  simp

lemma okSendsForPair_hadith_eval (t c tok : String) (hd : HadithData) (txt : String)
    (out : GatewayOutcome) (rest : List Event)
    (hrest : okSendsForPair t c rest = 0) :
    okSendsForPair t c (Event.send tok (hadithMessage hd txt) out :: rest) =
      if (tok == t && (hd.id == c) && (out == GatewayOutcome.ok)) = true
      then 1 else 0 := by
  unfold okSendsForPair at hrest ⊢
  rw [List.countP_cons, hrest, isOkSendForPair_hadith, Nat.zero_add]

lemma sendsForPair_namaz_zero (t c tok n : String) (out : GatewayOutcome)
    (rest : List Event) (hrest : sendsForPair t c rest = 0) :
    sendsForPair t c (Event.send tok (namazMessage n) out :: rest) = 0 := by
  unfold sendsForPair at hrest ⊢
  rw [List.countP_cons, hrest, isSendForPair_namaz]
  simp

lemma okSendsForPair_namaz_zero (t c tok n : String) (out : GatewayOutcome)
    (rest : List Event) (hrest : okSendsForPair t c rest = 0) :
    okSendsForPair t c (Event.send tok (namazMessage n) out :: rest) = 0 := by
  unfold okSendsForPair at hrest ⊢
  rw [List.countP_cons, hrest, isOkSendForPair_namaz]
  simp

lemma dedupStep_seq (t c : String) (f g : DispatchState → DispatchState × List Event)
    (hf : DedupStep t c f) (hg : DedupStep t c g) :
    DedupStep t c (seqStep f g) := by
  intro st
  obtain ⟨f1, f2, f3, f4⟩ := hf st
  obtain ⟨g1, g2, g3, g4⟩ := hg (f st).1
  have hokg0 : (f st).1.processedHadiths.contains (t ++ "-" ++ c) = true →
      okSendsForPair t c (g (f st).1).2 = 0 := by
    intro hkey
    have hz := g2 hkey
    have hle := okSendsForPair_le_sendsForPair t c (g (f st).1).2
    omega
  refine ⟨?_, ?_, ?_, ?_⟩
  · intro k hk
    exact g1 k (f1 k hk)
  · intro hkey
    show sendsForPair t c ((f st).2 ++ (g (f st).1).2) = 0
    rw [sendsForPair_append, f2 hkey, g2 (f1 _ hkey)]
  · show okSendsForPair t c ((f st).2 ++ (g (f st).1).2) ≤ 1
    rw [okSendsForPair_append]
    by_cases h1 : 1 ≤ okSendsForPair t c (f st).2
    · have := hokg0 (f4 h1)
      omega
    · have := g3
      omega
  · intro hsum
    have hsum' : 1 ≤ okSendsForPair t c ((f st).2 ++ (g (f st).1).2) := hsum
    rw [okSendsForPair_append] at hsum'
    show (g (f st).1).1.processedHadiths.contains (t ++ "-" ++ c) = true
    by_cases h1 : 1 ≤ okSendsForPair t c (f st).2
    · exact g1 _ (f4 h1)
    · have h2 : 1 ≤ okSendsForPair t c (g (f st).1).2 := by omega
      exact g4 h2

lemma dedupStep_id (t c : String) : DedupStep t c (fun st => (st, [])) := by
  intro st
  refine ⟨fun k hk => hk, fun _ => rfl, by simp [okSendsForPair], ?_⟩
  intro h1
  simp [okSendsForPair] at h1

lemma dedupStep_noEnabled (t c : String) :
    DedupStep t c (fun st => (st, [Event.noEnabled])) := by
  intro st
  refine ⟨fun k hk => hk, fun _ => rfl, ?_, ?_⟩
  · simp [okSendsForPair, isOkSendForPair]
  · intro h1
    simp [okSendsForPair, isOkSendForPair] at h1

lemma namaz_handler_ok (gw : String → GatewayOutcome) (tok n : String)
    (s : DispatchState) (hc : gw tok = .ok) :
    sendNamazNotification gw tok n s = (s, [.send tok (namazMessage n) .ok]) := by
  unfold sendNamazNotification
  rw [hc]

lemma namaz_handler_transient (gw : String → GatewayOutcome) (tok n : String)
    (s : DispatchState) (c : String) (hc : gw tok = .error c)
    (hinv : isInvalidTokenCode c = false) :
    sendNamazNotification gw tok n s =
      (s, [.send tok (namazMessage n) (.error c)]) := by
  unfold sendNamazNotification
  rw [hc]
  simp [hinv]

lemma hadith_handler_skip_eq (gw : String → GatewayOutcome) (tok : String)
    (hd : HadithData) (s : DispatchState)
    (hk : dedupKey tok hd ∈ s.processedHadiths) :
    sendHadithNotification gw tok hd s = (s, [.skipDuplicate tok]) := by
  simp [sendHadithNotification, hk]

lemma hadith_handler_no_text_eq (gw : String → GatewayOutcome) (tok : String)
    (hd : HadithData) (s : DispatchState)
    (hk : dedupKey tok hd ∉ s.processedHadiths) (ht : hd.text = none) :
    sendHadithNotification gw tok hd s = (s, []) := by
  simp [sendHadithNotification, hk, ht]

lemma hadith_handler_ok_eq (gw : String → GatewayOutcome) (tok : String)
    (hd : HadithData) (txt : String) (s : DispatchState)
    (hk : dedupKey tok hd ∉ s.processedHadiths) (ht : hd.text = some txt)
    (hgw : gw tok = .ok) :
    sendHadithNotification gw tok hd s =
      ({ s with processedHadiths := dedupKey tok hd :: s.processedHadiths },
       [.send tok (hadithMessage hd txt) .ok]) := by
  simp [sendHadithNotification, hk, ht, hgw]

lemma hadith_handler_invalid_eq (gw : String → GatewayOutcome) (tok : String)
    (hd : HadithData) (txt : String) (s : DispatchState) (c : String)
    (hk : dedupKey tok hd ∉ s.processedHadiths) (ht : hd.text = some txt)
    (hgw : gw tok = .error c) (hinv : isInvalidTokenCode c = true) :
    sendHadithNotification gw tok hd s =
      (removeInvalidToken tok s,
       [.send tok (hadithMessage hd txt) (.error c), .remove tok]) := by
  simp [sendHadithNotification, hk, ht, hgw, hinv]

lemma hadith_handler_transient_eq (gw : String → GatewayOutcome) (tok : String)
    (hd : HadithData) (txt : String) (s : DispatchState) (c : String)
    (hk : dedupKey tok hd ∉ s.processedHadiths) (ht : hd.text = some txt)
    (hgw : gw tok = .error c) (hinv : isInvalidTokenCode c = false) :
    sendHadithNotification gw tok hd s =
      (s, [.send tok (hadithMessage hd txt) (.error c)]) := by
  simp [sendHadithNotification, hk, ht, hgw, hinv]

lemma dedupStep_of_eq (t c : String) (f : DispatchState → DispatchState × List Event)
    (st st' : DispatchState) (evs : List Event)
    (heq : f st = (st', evs))
    (h1 : ∀ k, st.processedHadiths.contains k = true →
        st'.processedHadiths.contains k = true)
    (h2 : st.processedHadiths.contains (t ++ "-" ++ c) = true →
        sendsForPair t c evs = 0)
    (h3 : okSendsForPair t c evs ≤ 1)
    (h4 : 1 ≤ okSendsForPair t c evs →
        st'.processedHadiths.contains (t ++ "-" ++ c) = true) :
    (∀ k, st.processedHadiths.contains k = true →
        (f st).1.processedHadiths.contains k = true) ∧
    (st.processedHadiths.contains (t ++ "-" ++ c) = true →
        sendsForPair t c (f st).2 = 0) ∧
    okSendsForPair t c (f st).2 ≤ 1 ∧
    (1 ≤ okSendsForPair t c (f st).2 →
        (f st).1.processedHadiths.contains (t ++ "-" ++ c) = true) := by
  rw [heq]
  exact ⟨h1, h2, h3, h4⟩

lemma dedupStep_namaz_handler (t c : String) (gw : String → GatewayOutcome)
    (tok n : String) :
    DedupStep t c (sendNamazNotification gw tok n) := by
  intro st
  cases hgw : gw tok with
  | ok =>
    refine dedupStep_of_eq t c _ st st _ (namaz_handler_ok gw tok n st hgw)
      (fun k hk => hk) (fun _ => sendsForPair_namaz_zero t c tok n _ [] rfl) ?_ ?_
    · rw [okSendsForPair_namaz_zero t c tok n _ [] rfl]
      omega
    · intro h1
      rw [okSendsForPair_namaz_zero t c tok n _ [] rfl] at h1
      omega
  | error c' =>
    by_cases hinv : isInvalidTokenCode c' = true
    · refine dedupStep_of_eq t c _ st (removeInvalidToken tok st) _
        (namaz_handler_removes gw tok n st c' hgw hinv)
        (fun k hk => hk)
        (fun _ => sendsForPair_namaz_zero t c tok n _ [Event.remove tok]
          (sendsForPair_remove t c tok)) ?_ ?_
      · rw [okSendsForPair_namaz_zero t c tok n _ [Event.remove tok]
          (okSendsForPair_remove t c tok)]
        omega
      · intro h1
        rw [okSendsForPair_namaz_zero t c tok n _ [Event.remove tok]
          (okSendsForPair_remove t c tok)] at h1
        omega
    · have hinv' : isInvalidTokenCode c' = false := by simpa using hinv
      refine dedupStep_of_eq t c _ st st _
        (namaz_handler_transient gw tok n st c' hgw hinv')
        (fun k hk => hk)
        (fun _ => sendsForPair_namaz_zero t c tok n _ [] rfl) ?_ ?_
      · rw [okSendsForPair_namaz_zero t c tok n _ [] rfl]
        omega
      · intro h1
        rw [okSendsForPair_namaz_zero t c tok n _ [] rfl] at h1
        omega

lemma dedupStep_hadith_handler (t c : String) (gw : String → GatewayOutcome)
    (tok : String) (hd : HadithData) :
    DedupStep t c (sendHadithNotification gw tok hd) := by
  intro st
  by_cases hk : dedupKey tok hd ∈ st.processedHadiths
  · refine dedupStep_of_eq t c _ st st _ (hadith_handler_skip_eq gw tok hd st hk)
      (fun k hkk => hkk) (fun _ => rfl) (Nat.zero_le 1) ?_
    intro h1
    have h1' : 1 ≤ 0 := h1
    omega
  · have hmatch : ∀ hkey : st.processedHadiths.contains (t ++ "-" ++ c) = true,
        (tok == t && (hd.id == c)) = false := by
      intro hkey
      by_cases h1 : tok = t
      · by_cases h2 : hd.id = c
        · exfalso
          apply hk
          have he : dedupKey tok hd = t ++ "-" ++ c := by
            show tok ++ "-" ++ hd.id = t ++ "-" ++ c
            rw [h1, h2]
          rw [he]
          simpa using hkey
        · simp [h2]
      · simp [h1]
    cases htxt : hd.text with
    | none =>
      refine dedupStep_of_eq t c _ st st _
        (hadith_handler_no_text_eq gw tok hd st hk htxt)
        (fun k hkk => hkk) (fun _ => rfl) (Nat.zero_le 1) ?_
      intro h1
      have h1' : 1 ≤ 0 := h1
      omega
    | some txt =>
      cases hgw : gw tok with
      | ok =>
        refine dedupStep_of_eq t c _ st
          { st with processedHadiths := dedupKey tok hd :: st.processedHadiths } _
          (hadith_handler_ok_eq gw tok hd txt st hk htxt hgw) ?_ ?_ ?_ ?_
        · intro k hkk
          show (dedupKey tok hd :: st.processedHadiths).contains k = true
          rw [List.contains_cons, hkk, Bool.or_true]
        · intro hkey
          exact sendsForPair_hadith_zero t c tok hd txt _ [] rfl (hmatch hkey)
        · rw [okSendsForPair_hadith_eval t c tok hd txt _ [] rfl]
          split <;> omega
        · intro h1
          rw [okSendsForPair_hadith_eval t c tok hd txt _ [] rfl] at h1
          split at h1
          next hp =>
            rw [Bool.and_eq_true, Bool.and_eq_true] at hp
            have h1t : tok = t := by simpa using hp.1.1
            have h2c : hd.id = c := by simpa using hp.1.2
            show (dedupKey tok hd :: st.processedHadiths).contains (t ++ "-" ++ c) = true
            rw [List.contains_cons]
            have he : (t ++ "-" ++ c == dedupKey tok hd) = true := by
              show (t ++ "-" ++ c == tok ++ "-" ++ hd.id) = true
              rw [h1t, h2c]
              exact beq_self_eq_true _
            rw [he, Bool.true_or]
          next => omega
      | error c' =>
        by_cases hinv : isInvalidTokenCode c' = true
        · refine dedupStep_of_eq t c _ st (removeInvalidToken tok st) _
            (hadith_handler_invalid_eq gw tok hd txt st c' hk htxt hgw hinv)
            (fun k hkk => hkk) ?_ ?_ ?_
          · intro hkey
            exact sendsForPair_hadith_zero t c tok hd txt _ [Event.remove tok]
              (sendsForPair_remove t c tok) (hmatch hkey)
          · rw [okSendsForPair_hadith_eval t c tok hd txt _ [Event.remove tok]
              (okSendsForPair_remove t c tok),
              show (GatewayOutcome.error c' == GatewayOutcome.ok) = false from rfl,
              Bool.and_false]
            simp
          · intro h1
            rw [okSendsForPair_hadith_eval t c tok hd txt _ [Event.remove tok]
              (okSendsForPair_remove t c tok),
              show (GatewayOutcome.error c' == GatewayOutcome.ok) = false from rfl,
              Bool.and_false] at h1
            simp at h1
        · have hinv' : isInvalidTokenCode c' = false := by simpa using hinv
          refine dedupStep_of_eq t c _ st st _
            (hadith_handler_transient_eq gw tok hd txt st c' hk htxt hgw hinv')
            (fun k hkk => hkk) ?_ ?_ ?_
          · intro hkey
            exact sendsForPair_hadith_zero t c tok hd txt _ [] rfl (hmatch hkey)
          · rw [okSendsForPair_hadith_eval t c tok hd txt _ [] rfl,
              show (GatewayOutcome.error c' == GatewayOutcome.ok) = false from rfl,
              Bool.and_false]
            simp
          · intro h1
            rw [okSendsForPair_hadith_eval t c tok hd txt _ [] rfl,
              show (GatewayOutcome.error c' == GatewayOutcome.ok) = false from rfl,
              Bool.and_false] at h1
            simp at h1

lemma dedupStep_runHandlers (t c : String)
    (handler : String → DispatchState → DispatchState × List Event)
    (h : ∀ tok, DedupStep t c (handler tok)) :
    ∀ toks, DedupStep t c (runHandlers handler toks) := by
  intro toks
  induction toks with
  | nil => exact dedupStep_id t c
  | cons tok rest ih =>
    exact dedupStep_seq t c (handler tok) (runHandlers handler rest) (h tok) ih

lemma dedupStep_namaz_fanout (t c : String) (gw : String → GatewayOutcome)
    (n : String) :
    DedupStep t c (sendNamazNotifications gw n) := by
  intro st
  simp only [sendNamazNotifications]
  by_cases hemp : List.isEmpty (enabledTokens st) = true
  · rw [if_pos hemp]
    exact dedupStep_noEnabled t c st
  · rw [if_neg hemp]
    exact dedupStep_runHandlers t c _
      (fun tok => dedupStep_namaz_handler t c gw tok n) (enabledTokens st) st

lemma dedupStep_hadith_fanout (t c : String) (gw : String → GatewayOutcome)
    (i : String) (hd : HadithData) :
    DedupStep t c (sendHadithNotifications gw i hd) := by
  intro st
  simp only [sendHadithNotifications]
  by_cases hemp : List.isEmpty (enabledTokens st) = true
  · rw [if_pos hemp]
    exact dedupStep_noEnabled t c st
  · rw [if_neg hemp]
    exact dedupStep_runHandlers t c _
      (fun tok => dedupStep_hadith_handler t c gw tok { hd with id := i })
      (enabledTokens st) st

lemma dedupStep_trigger (t c : String) (gw : String → GatewayOutcome) (tr : Trigger) :
    DedupStep t c (runTrigger gw tr) := by
  cases tr with
  | namaz n => exact dedupStep_namaz_fanout t c gw n
  | hadith i d => exact dedupStep_hadith_fanout t c gw i d

lemma dedupStep_runTriggers (t c : String) :
    ∀ steps : List ((String → GatewayOutcome) × Trigger),
      DedupStep t c (runTriggers steps) := by
  intro steps
  induction steps with
  | nil => exact dedupStep_id t c
  | cons p rest ih =>
    exact dedupStep_seq t c (runTrigger p.1 p.2) (runTriggers rest)
      (dedupStep_trigger t c p.1 p.2) ih

/-- C1: over any process lifetime (any sequence of fan-out triggers with any
gateway behaviours), at most one successful gateway send carries the pair
(token `t`, content `c`); once the dedup key is marked, no further gateway
call for the pair occurs at all; a successful send leaves the key marked; and
the dedup set only ever grows (it is reset only by losing the in-process
state, i.e. a restart). -/
theorem contentAlert_delivered_at_most_once (t c : String)
    (steps : List ((String → GatewayOutcome) × Trigger)) (st : DispatchState) :
    okSendsForPair t c (runTriggers steps st).2 ≤ 1 ∧
    (st.processedHadiths.contains (t ++ "-" ++ c) = true →
        sendsForPair t c (runTriggers steps st).2 = 0) ∧
    (1 ≤ okSendsForPair t c (runTriggers steps st).2 →
        (runTriggers steps st).1.processedHadiths.contains (t ++ "-" ++ c) = true) ∧
    (∀ k, st.processedHadiths.contains k = true →
        (runTriggers steps st).1.processedHadiths.contains k = true) := by
  obtain ⟨h1, h2, h3, h4⟩ := dedupStep_runTriggers t c steps st
  exact ⟨h3, h2, h4, h1⟩

/-! ## Settlement lemmas (C5) -/

lemma settledTokens_append (l1 l2 : List Event) :
    settledTokens (l1 ++ l2) = settledTokens l1 ++ settledTokens l2 := by
  unfold settledTokens
  rw [List.filterMap_append]

lemma hadith_handler_settledTokens (gw : String → GatewayOutcome) (tok : String)
    (hd : HadithData) (txt : String) (s : DispatchState)
    (htext : hd.text = some txt) :
    settledTokens (sendHadithNotification gw tok hd s).2 = [tok] := by
  by_cases hk : dedupKey tok hd ∈ s.processedHadiths
  · rw [hadith_handler_skip_eq gw tok hd s hk]
    rfl
  · cases hgw : gw tok with
    | ok =>
      rw [hadith_handler_ok_eq gw tok hd txt s hk htext hgw]
      rfl
    | error c =>
      by_cases hinv : isInvalidTokenCode c = true
      · rw [hadith_handler_invalid_eq gw tok hd txt s c hk htext hgw hinv]
        rfl
      · have hinv' : isInvalidTokenCode c = false := by simpa using hinv
        rw [hadith_handler_transient_eq gw tok hd txt s c hk htext hgw hinv']
        rfl

lemma runHandlers_settledTokens
    (handler : String → DispatchState → DispatchState × List Event)
    (h : ∀ tok s, settledTokens (handler tok s).2 = [tok]) :
    ∀ toks st, settledTokens (runHandlers handler toks st).2 = toks := by
  intro toks
  induction toks with
  | nil => intro st; rfl
  | cons tok rest ih =>
    intro st
    rw [runHandlers_cons]
    show settledTokens ((handler tok st).2 ++ _) = _
    rw [settledTokens_append, h, ih]
    rfl

lemma hadith_fanout_settledTokens (gw : String → GatewayOutcome) (i : String)
    (hd : HadithData) (txt : String) (st : DispatchState)
    (htext : hd.text = some txt) :
    settledTokens (sendHadithNotifications gw i hd st).2 = enabledTokens st := by
  have hfull : ({ hd with id := i } : HadithData).text = some txt := htext
  unfold sendHadithNotifications
  by_cases hemp : List.isEmpty (enabledTokens st) = true
  · rw [if_pos hemp, List.isEmpty_iff.mp hemp]
    rfl
  · rw [if_neg hemp]
    exact runHandlers_settledTokens _
      (fun tok s => hadith_handler_settledTokens gw tok _ txt s hfull)
      (enabledTokens st) st

/-- C5: every fan-out entry point settles each per-token attempt and returns
normally (the result type carries no error channel), for every gateway
behaviour including all-failing ones, so per-token failures never abort the
batch or propagate to the cron, content-watch, or HTTP caller. A scheduled
fan-out performs exactly one gateway attempt per enabled token; a ContentAlert
fan-out over a record with text settles every enabled token with a send or a
dedup skip; a ContentAlert fan-out over a text-less record still completes,
producing only skip/no-enabled events. -/
theorem fanout_settles_all_tokens (gw gw2 : String → GatewayOutcome)
    (n i txt : String) (hd : HadithData) (st : DispatchState) :
    sendTokens (sendNamazNotifications gw n st).2 = enabledTokens st ∧
    (hd.text = some txt →
        settledTokens (sendHadithNotifications gw2 i hd st).2 = enabledTokens st) ∧
    (hd.text = none →
        (sendHadithNotifications gw2 i hd st).2.all isQuietEvent = true) := by
  refine ⟨namaz_fanout_sendTokens gw n st,
    fun htext => hadith_fanout_settledTokens gw2 i hd txt st htext, ?_⟩
  intro htext
  have hfull : ({ hd with id := i } : HadithData).text = none := htext
  unfold sendHadithNotifications
  by_cases hemp : List.isEmpty (enabledTokens st) = true
  · rw [if_pos hemp]
    rfl
  · rw [if_neg hemp]
    exact runHandlers_events_all _ isQuietEvent
      (fun tok s => hadith_handler_no_text_events gw2 tok _ s hfull)
      (enabledTokens st) st

/-! ## Witnesses -/

/-- Witness for C1 at a concrete double delivery of the same content. -/
theorem contentAlert_delivered_at_most_once_witness :
    okSendsForPair "A" "h1"
      (runTriggers [(gwAllOk, .hadith "h1" sampleHadith), (gwAllOk, .hadith "h1" sampleHadith)]
        sampleState).2 ≤ 1 :=
  (contentAlert_delivered_at_most_once "A" "h1"
    [(gwAllOk, .hadith "h1" sampleHadith), (gwAllOk, .hadith "h1" sampleHadith)]
    sampleState).1

/-- Witness for C2 at the spec's scenario store (A enabled, B disabled). -/
theorem disabled_token_never_sent_witness :
    sendsTo "B" (sendNamazNotifications gwAllOk "Fajr" sampleState).2 = 0 ∧
    sendsTo "B" (sendHadithNotifications gwAllOk "h1" sampleHadith sampleState).2 = 0 ∧
    sendTokens (sendNamazNotifications gwAllOk "Fajr" sampleState).2 =
      enabledTokens sampleState :=
  disabled_token_never_sent gwAllOk gwAllOk "Fajr" "h1" sampleHadith sampleState "B" (by decide)

/-- Witness for C3: a gateway reporting the invalid-token code prunes "A". -/
theorem invalid_token_pruned_witness :
    sendNamazNotification gwAllInvalid "A" "Fajr" sampleState =
      (removeInvalidToken "A" sampleState,
       [.send "A" (namazMessage "Fajr")
          (.error "messaging/invalid-registration-token"),
        .remove "A"]) ∧
    hasTokenRecord "A" (sendNamazNotifications gwAllInvalid "Fajr" sampleState).1 = false := by
  have h := invalid_token_pruned gwAllInvalid "A" "Fajr"
    "messaging/invalid-registration-token" sampleState rfl
  have h2 := h.2.1 (by decide)
  exact ⟨h2.1, h2.2 (by decide)⟩

/-- Witness for C4: length-60 text is truncated to 50 chars plus "...", and
length-50 text passes through verbatim. -/
theorem contentAlert_truncation_witness :
    (hadithMessage hadith60 sampleText60).body = sampleText60.take 50 ++ "..." ∧
    (hadithMessage hadith50 sampleText50).body = sampleText50 := by
  have h60 := contentAlert_truncation gwAllOk "A" hadith60 sampleText60
    { tokens := [], processedHadiths := [] } rfl rfl
  have h50 := contentAlert_truncation gwAllOk "A" hadith50 sampleText50
    { tokens := [], processedHadiths := [] } rfl rfl
  exact ⟨h60.2.2 (by decide), h50.2.1 (by decide)⟩

/-- Witness for C5: an all-rejecting gateway still attempts every enabled
token of the scheduled fan-out, and the ContentAlert fan-out settles every
enabled token for a record with text. -/
theorem fanout_settles_all_tokens_witness :
    sendTokens (sendNamazNotifications gwAllInvalid "Fajr" sampleState).2 =
      enabledTokens sampleState ∧
    settledTokens (sendHadithNotifications gwAllOk "h1" sampleHadith sampleState).2 =
      enabledTokens sampleState := by
  have h := fanout_settles_all_tokens gwAllInvalid gwAllOk "Fajr" "h1"
    "Sample hadith text" sampleHadith sampleState
  exact ⟨h.1, h.2.1 rfl⟩

/-- Witness for C6 at a fresh token "T". -/
theorem saveToken_idempotent_witness :
    (saveToken (some "T") (saveToken (some "T") sampleState).1).1 =
      (saveToken (some "T") sampleState).1 ∧
    (saveToken (some "T") (saveToken (some "T") sampleState).1).2 =
      Resp.ok "Token processed" ∧
    (hasTokenRecord "T" sampleState = false →
        lookupToken "T" (saveToken (some "T") sampleState).1 = some true) ∧
    (hasTokenRecord "T" sampleState = true →
        (saveToken (some "T") sampleState).1 = sampleState) :=
  saveToken_idempotent sampleState "T" (by decide)

/-- Witness for the amended C7 at the stored token "A". -/
theorem toggle_amended_witness :
    (hasTokenRecord "A" sampleState = false →
        toggleNotification (some "A") (some false) sampleState =
          (sampleState, Resp.serverError "Error updating preference")) ∧
    (hasTokenRecord "A" sampleState = true →
        (toggleNotification (some "A") (some false) sampleState).2 =
          Resp.ok "Notification preference updated" ∧
        lookupToken "A" (toggleNotification (some "A") (some false) sampleState).1 =
          some false ∧
        (toggleNotification (some "A") (some false) sampleState).1.tokens.filter
            (fun e => e.1 != "A") =
          sampleState.tokens.filter (fun e => e.1 != "A") ∧
        (toggleNotification (some "A") (some false) sampleState).1.processedHadiths =
          sampleState.processedHadiths) :=
  toggle_amended sampleState "A" false (by decide)

/-- Witness for C8 at a store whose only token is disabled. -/
theorem empty_snapshot_noop_witness :
    sendNamazNotifications gwAllOk "Fajr" disabledState =
      (disabledState, [Event.noEnabled]) ∧
    sendHadithNotifications gwAllOk "h1" sampleHadith disabledState =
      (disabledState, [Event.noEnabled]) ∧
    sendTokens [Event.noEnabled] = [] :=
  empty_snapshot_noop gwAllOk gwAllOk "Fajr" "h1" sampleHadith disabledState (by decide)

/-- Witness for C9 at a record with no category. -/
theorem contentAlert_payload_witness :
    ((sendHadithNotification gwAllOk "A" sampleHadith
        { tokens := [], processedHadiths := [] }).2.contains
      (Event.send "A" (hadithMessage sampleHadith "Sample hadith text")
        (gwAllOk "A")) = true) ∧
    (hadithMessage sampleHadith "Sample hadith text").channelId = "hadith_channel" ∧
    (hadithMessage sampleHadith "Sample hadith text").sound = "default" ∧
    (hadithMessage sampleHadith "Sample hadith text").title =
      "नया हदीस: Islamic Hadith" := by
  have h := contentAlert_payload gwAllOk "A" sampleHadith "Sample hadith text" "Adab"
    { tokens := [], processedHadiths := [] } rfl rfl
  exact ⟨h.1, h.2.1, h.2.2.1, h.2.2.2.2.1 rfl⟩

/-- Witness for C10 at a record with no text field. -/
theorem contentAlert_missing_text_safe_witness :
    (sendHadithNotifications gwAllOk "h1" noTextHadith sampleState).1 = sampleState ∧
    sendTokens (sendHadithNotifications gwAllOk "h1" noTextHadith sampleState).2 = [] ∧
    removesTotal (sendHadithNotifications gwAllOk "h1" noTextHadith sampleState).2 = 0 :=
  contentAlert_missing_text_safe gwAllOk "h1" noTextHadith sampleState rfl

end NamazTime
